import Mathlib

/-
Shallow embedding of the axbsp block-storage adapter layer:
the Phytium Pi SD-card variant (axbsp-phytium-pi/src/sdcard.rs) and the
RK3568 eMMC variant (axbsp-roc-rk3568-pc/src/sdhci.rs, clk.rs).
Vendor host-controller calls (phytium_mci, sdmmc, rk3568_clk) are external
collaborators and are modelled as oracles; the adapter logic itself is
translated directly from the source.
-/

namespace Axbsp

/-- Block size in bytes (`BLOCK_SIZE` in both variants; sdmmc::BLOCK_SIZE is 512). -/
def BLOCK_SIZE : Nat := 512

/-- Reserved-region byte offset of the Phytium SD-card variant (`OFFSET` in sdcard.rs). -/
def SD_OFFSET : Nat := 0x4000000

/-- Reserved-region block offset of the RK3568 eMMC variant (`OFFSET` in sdhci.rs). -/
def EMMC_OFFSET : Nat := 0x7A000

/-- Semantics of the Rust cast `x as u32`: truncation modulo 2^32. -/
def toU32 (x : Nat) : Nat := x % 4294967296

/-- A caller buffer, as seen by the adapter: its start address, its byte
length, and its content viewed through the u32 reinterpretation of the
aligned middle (the `aligned_buf` produced by `align_to::<u32>`). When the
buffer is word-aligned at both ends, `byteLen = 4 * words.length`. -/
structure Buffer where
  addr : Nat
  byteLen : Nat
  words : List Nat
deriving DecidableEq

/-- Byte length of the `prefix` returned by `align_to::<u32>`: the bytes
before the first 4-aligned address, capped by the slice length. -/
def alignPrefixLen (b : Buffer) : Nat :=
  min ((4 - b.addr % 4) % 4) b.byteLen

/-- Byte length of the `suffix` returned by `align_to::<u32>`: the bytes
left over after the last whole u32 of the aligned middle. -/
def alignSuffixLen (b : Buffer) : Nat :=
  (b.byteLen - alignPrefixLen b) % 4

/-- `BufferError` from both variants. -/
inductive BufferError where
  | InvalidSize (expected actual : Nat)
  | InvalidAlignment
deriving DecidableEq

/-- `phytium_mci::mci_host::err::MCIHostError`. The variants named in the
adapter's match arms are listed; every remaining vendor code of the
enumeration is represented by the catch-all constructor `otherCode`. -/
inductive MCIHostError where
  | Timeout
  | OutOfRange
  | InvalidArgument
  | CardDetectFailed
  | CardInitFailed
  | InvalidVoltage
  | SwitchVoltageFail
  | SwitchVoltage18VFail33VSuccess
  | TransferFailed
  | StopTransmissionFailed
  | WaitWriteCompleteFailed
  | otherCode (code : Nat)
deriving DecidableEq

/-- `sdmmc::err::SdError`. The variants named in this repository's match
arms (axbsp-roc-rk3568-pc/src/sdhci.rs and bsp-rockship/src/sdhci.rs) are
listed; every remaining vendor code is the catch-all `otherCode`. -/
inductive SdError where
  | Timeout
  | DataTimeout
  | InvalidResponse
  | InvalidResponseType
  | UnsupportedCard
  | TuningFailed
  | VoltageSwitchFailed
  | BadMessage
  | InvalidArgument
  | BusWidth
  | CardError (cmd status : Nat)
  | otherCode (code : Nat)
deriving DecidableEq

/-- Payload of `BlkError::Other` on the SD-card variant: either a
`BufferError` or an `MCIErrorWrapper` holding the original vendor code. -/
inductive SdOtherDetail where
  | buffer (e : BufferError)
  | mciWrapper (e : MCIHostError)
deriving DecidableEq

/-- Payload of `BlkError::Other` on the eMMC variant: either a
`BufferError` or an `SdErrorWrapper` holding the original vendor code. -/
inductive EmmcOtherDetail where
  | buffer (e : BufferError)
  | sdWrapper (e : SdError)
deriving DecidableEq

/-- `rdif_block::BlkError`, parameterized by the payload of `Other`. -/
inductive BlkError (α : Type) where
  | Retry
  | NotSupported
  | Other (detail : α)
deriving DecidableEq

/-- `map_mci_error_to_blk_error` from axbsp-phytium-pi/src/sdcard.rs. -/
def map_mci_error_to_blk_error : MCIHostError → BlkError SdOtherDetail
  | .Timeout => .Retry
  | .OutOfRange => .Other (.mciWrapper .OutOfRange)
  | .InvalidArgument => .Other (.mciWrapper .InvalidArgument)
  | .CardDetectFailed => .NotSupported
  | .CardInitFailed => .NotSupported
  | .InvalidVoltage => .NotSupported
  | .SwitchVoltageFail => .NotSupported
  | .SwitchVoltage18VFail33VSuccess => .NotSupported
  | .TransferFailed => .Retry
  | .StopTransmissionFailed => .Retry
  | .WaitWriteCompleteFailed => .Retry
  | e => .Other (.mciWrapper e)

/-- `map_sd_error_to_blk_error` from axbsp-roc-rk3568-pc/src/sdhci.rs. -/
def map_sd_error_to_blk_error : SdError → BlkError EmmcOtherDetail
  | .Timeout => .Retry
  | .DataTimeout => .Retry
  | .UnsupportedCard => .NotSupported
  | e => .Other (.sdWrapper e)

/-- `SdCardQueue::validate_buffer`: reject a buffer shorter than
`BLOCK_SIZE`, then reject one whose `align_to::<u32>` view has a nonempty
prefix or suffix. -/
def SdCardQueue.validate_buffer (b : Buffer) : Except (BlkError SdOtherDetail) Unit :=
  if b.byteLen < BLOCK_SIZE then
    .error (.Other (.buffer (.InvalidSize BLOCK_SIZE b.byteLen)))
  else if alignPrefixLen b ≠ 0 ∨ alignSuffixLen b ≠ 0 then
    .error (.Other (.buffer .InvalidAlignment))
  else
    .ok ()

/-- `rdif_block::RequestKind`. -/
inductive RequestKind where
  | Read (buffer : Buffer)
  | Write (buffer : Buffer)
deriving DecidableEq

/-- `rdif_block::Request`. -/
structure Request where
  block_id : Nat
  kind : RequestKind
deriving DecidableEq

/-- The buffer carried by a request, whichever arm holds it. -/
def Request.buffer (r : Request) : Buffer :=
  match r.kind with
  | .Read b => b
  | .Write b => b

/-- One call issued to the vendor host-controller library, recorded with
the start block and block count actually passed. -/
inductive HWCall where
  | readBlocks (start count : Nat)
  | writeBlocks (start count : Nat)
deriving DecidableEq

/-- Start block of a recorded vendor call. -/
def HWCall.start : HWCall → Nat
  | .readBlocks s _ => s
  | .writeBlocks s _ => s

/-- Block count of a recorded vendor call. -/
def HWCall.count : HWCall → Nat
  | .readBlocks _ c => c
  | .writeBlocks _ c => c

/-- Oracle for the phytium_mci `SdCard` vendor driver. `read_blocks`
appends words to the (initially empty) staging `Vec<u32>`; the list
returned is the staged read output. `write_blocks` consumes the staged
copy of the caller words. -/
structure SdCardOps where
  read_blocks : Nat → Nat → Except MCIHostError (List Nat)
  write_blocks : List Nat → Nat → Nat → Except MCIHostError Unit

/-- Oracle for the sdmmc `EMmcHost` vendor driver. `read_blocks` writes
directly into the caller buffer: it maps the current buffer words to the
words after the hardware read. -/
structure EMmcOps where
  read_blocks : Nat → Nat → List Nat → Except SdError (List Nat)
  write_blocks : Nat → Nat → List Nat → Except SdError Unit

/-- Decidable equality for `Except`, used to evaluate outcomes on
concrete inputs. -/
instance {ε α : Type} [DecidableEq ε] [DecidableEq α] : DecidableEq (Except ε α) := by
  intro a b
  cases a <;> cases b
  case error.error x y =>
    exact if h : x = y then .isTrue (by rw [h]) else .isFalse (by simp [h])
  case ok.ok x y =>
    exact if h : x = y then .isTrue (by rw [h]) else .isFalse (by simp [h])
  case error.ok x y => exact .isFalse (by simp)
  case ok.error x y => exact .isFalse (by simp)

/-- Everything observable about one `submit_request` call: the returned
result, the caller buffer after the call, and the vendor calls issued. -/
structure SubmitOutcome (α : Type) where
  result : Except (BlkError α) Nat
  buffer : Buffer
  calls : List HWCall
deriving DecidableEq

/-- `SdCardQueue::submit_request` (axbsp-phytium-pi/src/sdcard.rs).
The physical block id is `request.block_id + OFFSET / 512`, truncated by
the `as u32` cast at the vendor call. The Read arm allocates a staging
`Vec<u32>` with capacity `aligned_buf.len()`, has the vendor fill it, and
copies `min (temp_buf.len()) (aligned_buf.len())` words back into the
caller buffer. The Write arm copies the aligned caller words to a staging
vector and hands it to the vendor. -/
def SdCardQueue.submit_request (ops : SdCardOps) (request : Request) :
    SubmitOutcome SdOtherDetail :=
  let actual_block_id := request.block_id + SD_OFFSET / 512
  match request.kind with
  | .Read buffer =>
    match SdCardQueue.validate_buffer buffer with
    | .error e => ⟨.error e, buffer, []⟩
    | .ok _ =>
      match ops.read_blocks (toU32 actual_block_id) 1 with
      | .error err =>
        ⟨.error (map_mci_error_to_blk_error err), buffer,
          [.readBlocks (toU32 actual_block_id) 1]⟩
      | .ok temp_buf =>
        let copy_len := min temp_buf.length buffer.words.length
        ⟨.ok 0,
          { buffer with words := temp_buf.take copy_len ++ buffer.words.drop copy_len },
          [.readBlocks (toU32 actual_block_id) 1]⟩
  | .Write buffer =>
    match SdCardQueue.validate_buffer buffer with
    | .error e => ⟨.error e, buffer, []⟩
    | .ok _ =>
      match ops.write_blocks buffer.words (toU32 actual_block_id) 1 with
      | .error err =>
        ⟨.error (map_mci_error_to_blk_error err), buffer,
          [.writeBlocks (toU32 actual_block_id) 1]⟩
      | .ok _ => ⟨.ok 0, buffer, [.writeBlocks (toU32 actual_block_id) 1]⟩

/-- Lift a `BufferError` into the eMMC variant's `BlkError::Other`. -/
def emmcBufferErr (e : BufferError) : BlkError EmmcOtherDetail :=
  .Other (.buffer e)

/-- `EmmcQueue::submit_request` (axbsp-roc-rk3568-pc/src/sdhci.rs).
The physical block id is `request.block_id + OFFSET` (already in blocks),
truncated by the `as u32` cast at the vendor call. Size and alignment
checks are inlined in each arm; the vendor read writes directly into the
caller buffer and the vendor write consumes it in place. -/
def EmmcQueue.submit_request (ops : EMmcOps) (request : Request) :
    SubmitOutcome EmmcOtherDetail :=
  let id := request.block_id + EMMC_OFFSET
  match request.kind with
  | .Read buffer =>
    if buffer.byteLen < BLOCK_SIZE then
      ⟨.error (emmcBufferErr (.InvalidSize BLOCK_SIZE buffer.byteLen)), buffer, []⟩
    else if alignPrefixLen buffer ≠ 0 ∨ alignSuffixLen buffer ≠ 0 then
      ⟨.error (emmcBufferErr .InvalidAlignment), buffer, []⟩
    else
      match ops.read_blocks (toU32 id) 1 buffer.words with
      | .error err =>
        ⟨.error (map_sd_error_to_blk_error err), buffer, [.readBlocks (toU32 id) 1]⟩
      | .ok newWords =>
        ⟨.ok 0, { buffer with words := newWords }, [.readBlocks (toU32 id) 1]⟩
  | .Write buffer =>
    if buffer.byteLen < BLOCK_SIZE then
      ⟨.error (emmcBufferErr (.InvalidSize BLOCK_SIZE buffer.byteLen)), buffer, []⟩
    else if alignPrefixLen buffer ≠ 0 ∨ alignSuffixLen buffer ≠ 0 then
      ⟨.error (emmcBufferErr .InvalidAlignment), buffer, []⟩
    else
      match ops.write_blocks (toU32 id) 1 buffer.words with
      | .error err =>
        ⟨.error (map_sd_error_to_blk_error err), buffer, [.writeBlocks (toU32 id) 1]⟩
      | .ok _ => ⟨.ok 0, buffer, [.writeBlocks (toU32 id) 1]⟩

/-- `SdCardQueue::poll_request`: ignores the request id, touches nothing,
returns `Ok(())`. The abstract state `s` stands for the shared
`Arc<Mutex<Box<SdCard>>>` handle. -/
def SdCardQueue.poll_request {σ : Type} (s : σ) (_request : Nat) :
    Except (BlkError SdOtherDetail) Unit × σ :=
  (.ok (), s)

/-- `EmmcQueue::poll_request`: ignores the request id, touches nothing,
returns `Ok(())`. -/
def EmmcQueue.poll_request {σ : Type} (s : σ) (_request : Nat) :
    Except (BlkError EmmcOtherDetail) Unit × σ :=
  (.ok (), s)

/-- Frequency constant `MHZ` from clk.rs. -/
def MHZ : Nat := 1000000

/-- Frequency constant `KHZ` from clk.rs. -/
def KHZ : Nat := 1000

/-- `EMMC_CLK_ID` from clk.rs. -/
def EMMC_CLK_ID : Nat := 0x7c

/-- The discrete `CRU_CLKSEL_CCLK_EMMC_*` clock-source selectors of the
rk3568_clk vendor crate, modelled as an abstract enumeration of distinct
values. -/
inductive CruSel where
  | XIN_SOC0_MUX
  | CPL_DIV_50M
  | CPL_DIV_100M
  | GPL_DIV_150M
  | GPL_DIV_200M
  | SOC0_375K
deriving DecidableEq

/-- `rdrive::KError`, restricted to the variant this driver produces. -/
inductive KError where
  | InvalidArg (name : String)
deriving DecidableEq

/-- Outcome of `ClkDriver::set_rate`: either the register write was
performed with the chosen selector and `Ok(())` returned, or
`Err(InvalidArg)` was returned with no register write, or the
`panic!("Unsupported eMMC clock rate")` arm fired (fatal, aborting the
probe sequence; no register write). -/
inductive SetRateOutcome where
  | ok (written : CruSel)
  | err (e : KError)
  | panicked (rate : Nat)
deriving DecidableEq

/-- `ClkDriver::set_rate` (axbsp-roc-rk3568-pc/src/clk.rs, identical in
bsp-rockship/src/clk.rs). The requested `u64` rate is compared only after
the `rate as u32` cast. -/
def ClkDriver.set_rate (id : Nat) (rate : Nat) : SetRateOutcome :=
  if id = EMMC_CLK_ID then
    let r := toU32 rate
    if r = 24 * MHZ then .ok .XIN_SOC0_MUX
    else if r = 52 * MHZ ∨ r = 50 * MHZ then .ok .CPL_DIV_50M
    else if r = 100 * MHZ then .ok .CPL_DIV_100M
    else if r = 150 * MHZ then .ok .GPL_DIV_150M
    else if r = 200 * MHZ then .ok .GPL_DIV_200M
    else if r = 400 * KHZ ∨ r = 375 * KHZ then .ok .SOC0_375K
    else .panicked rate
  else .err (.InvalidArg ("clock_id"))

/-- `ClkDriver::get_rate`. `pos` is the vendor constant
`CRU_CLKSEL_CCLK_EMMC_POS` and `con` the register value returned by
`cru_clksel_get_cclk_emmc`; for any other id the function returns
`Err(InvalidArg)` without reading or writing the register. -/
def ClkDriver.get_rate (pos : Nat) (con : Nat) (id : Nat) : Except KError Nat :=
  if id = EMMC_CLK_ID then .ok (con >>> pos) else .error (.InvalidArg ("clock_id"))

/-- The requested-rate table the eMMC `set_rate` accepts, read off the
match arms of clk.rs. -/
def emmcRateTable : List Nat :=
  [24 * MHZ, 52 * MHZ, 50 * MHZ, 100 * MHZ, 150 * MHZ, 200 * MHZ, 400 * KHZ, 375 * KHZ]

/-- Observable outcome of `probe_mmc` for the eMMC variant, past the
register-mapping stage: whether the device was registered with the
platform, and whether the host controller's `init()` succeeded. -/
structure ProbeOutcome where
  registered : Bool
  initOk : Bool
deriving DecidableEq

/-- The tail of `probe_mmc` (axbsp-roc-rk3568-pc/src/sdhci.rs): the host
is constructed, `init()` is attempted, its failure is only logged, and
the device is registered with the platform either way. -/
def probe_mmc (initResult : Except SdError Unit) : ProbeOutcome :=
  match initResult with
  | .ok _ => { registered := true, initOk := true }
  | .error _ => { registered := true, initOk := false }

/-- Vendor stub whose read stages nothing and whose write accepts. -/
def trivialSdOps : SdCardOps := ⟨fun _ _ => .ok [], fun _ _ _ => .ok ()⟩

/-- Vendor stub for the eMMC host that leaves the buffer unchanged. -/
def trivialEmmcOps : EMmcOps := ⟨fun _ _ w => .ok w, fun _ _ _ => .ok ()⟩

/-- Vendor stub whose read stages the three words 7, 8, 9. -/
def stubSdOps : SdCardOps := ⟨fun _ _ => .ok [7, 8, 9], fun _ _ _ => .ok ()⟩

/-- A well-formed one-block buffer: aligned at both ends, 512 bytes. -/
def bigBuf : Buffer := ⟨0, 512, List.replicate 128 0⟩

/-- An undersized buffer (100 bytes). -/
def smallBuf : Buffer := ⟨0, 100, []⟩

/-- A buffer that is both undersized and misaligned at its start. -/
def misalignedTiny : Buffer := ⟨2, 4, []⟩

/-- A full-size buffer whose start address is not word-aligned. -/
def misalignedBig : Buffer := ⟨1, 512, []⟩

/-- A well-formed one-block buffer whose words are all ones. -/
def onesBuf : Buffer := ⟨0, 512, List.replicate 128 1⟩

/-- Vendor stand-in for the eMMC host whose read overwrites, in place,
each destination word with that word plus one. It is a legal
implementation of the `read_blocks(start, count, &mut buffer)` interface
the eMMC adapter hands the caller buffer to; its output depends on the
caller buffer's prior content, which a hardware read into a freshly
allocated internal staging region could never observe. -/
def probeEmmcOps : EMmcOps :=
  ⟨fun _ _ w => .ok (w.map (fun x => x + 1)), fun _ _ _ => .ok ()⟩

/-- A buffer whose start or end is misaligned makes the `align_to::<u32>`
prefix or suffix nonempty, provided the buffer is at least a word long. -/
theorem misaligned_ends (b : Buffer) (hs : 4 ≤ b.byteLen)
    (ha : b.addr % 4 ≠ 0 ∨ (b.addr + b.byteLen) % 4 ≠ 0) :
    alignPrefixLen b ≠ 0 ∨ alignSuffixLen b ≠ 0 := by
  simp only [alignSuffixLen, alignPrefixLen]
  omega

/-- A buffer accepted by `validate_buffer` is at least a block long and
word-aligned at both ends of its `align_to::<u32>` view. -/
theorem validate_ok_conds (b : Buffer)
    (h : SdCardQueue.validate_buffer b = .ok ()) :
    ¬ b.byteLen < BLOCK_SIZE ∧ ¬(alignPrefixLen b ≠ 0 ∨ alignSuffixLen b ≠ 0) := by
  unfold SdCardQueue.validate_buffer at h
  split_ifs at h with h1 h2
  exact ⟨h1, h2⟩

/-- Claim C7: when the host controller's `init()` reports failure during
probe of the eMMC variant, the device is still registered with the
platform (the degraded state is observable), rather than the probe
aborting registration. -/
theorem c7_init_failure_still_registers (e : SdError) :
    (probe_mmc (Except.error e)).registered = true
    ∧ (probe_mmc (Except.error e)).initOk = false :=
  ⟨rfl, rfl⟩

/-- Claim C8: `poll_request` returns success for every request id, on both
variants, and leaves the queue and device state untouched. -/
theorem c8_poll_request_noop {σ : Type} (s : σ) (id : Nat) :
    SdCardQueue.poll_request s id = (Except.ok (), s)
    ∧ EmmcQueue.poll_request s id = (Except.ok (), s) :=
  ⟨rfl, rfl⟩

/-- Claim C10: for every clock id other than the eMMC clock id 0x7c, both
`get_rate` and `set_rate` return an invalid-argument error; the `err`
outcome of `set_rate` performs no register write, and `get_rate` never
writes. -/
theorem c10_invalid_clock_id (id rate pos con : Nat) (h : id ≠ EMMC_CLK_ID) :
    ClkDriver.set_rate id rate = .err (.InvalidArg ("clock_id"))
    ∧ ClkDriver.get_rate pos con id = .error (.InvalidArg ("clock_id")) := by
  constructor
  · simp [ClkDriver.set_rate, h]
  · simp [ClkDriver.get_rate, h]

/-- Claim C10 witness: clock id 0 is rejected by both calls. -/
theorem c10_invalid_clock_id_witness :
    ClkDriver.set_rate 0 24000000 = .err (.InvalidArg ("clock_id"))
    ∧ ClkDriver.get_rate 3 0 0 = .error (.InvalidArg ("clock_id")) :=
  c10_invalid_clock_id 0 24000000 3 0 (by decide)

/-- Claim C2 counterexample: the eMMC variant's voltage-switch-failure
code, a voltage-incompatibility code of its vendor vocabulary, maps to
`Other` (carrying the original code), not to `NotSupported` as the claim
requires. -/
theorem c2_counterexample :
    map_sd_error_to_blk_error SdError.VoltageSwitchFailed
        = BlkError.Other (EmmcOtherDetail.sdWrapper SdError.VoltageSwitchFailed)
    ∧ map_sd_error_to_blk_error SdError.VoltageSwitchFailed ≠ BlkError.NotSupported := by
  decide

/-- Claim C2 (amended): both vendor-error mappings are total deterministic
functions into {Retry, NotSupported, Other(original code)}; timeout and
transient transfer-failure codes map to `Retry`; the SD-card variant's
card-detection, card-initialization and voltage codes map to
`NotSupported`, as does the eMMC variant's unsupported-card code — but the
eMMC variant's voltage-switch-failure code maps to `Other` carrying the
original vendor code. -/
theorem c2_error_mapping_taxonomy (e1 : MCIHostError) (e2 : SdError) :
    (map_mci_error_to_blk_error e1 = .Retry
      ∨ map_mci_error_to_blk_error e1 = .NotSupported
      ∨ map_mci_error_to_blk_error e1 = .Other (.mciWrapper e1))
    ∧ (map_sd_error_to_blk_error e2 = .Retry
      ∨ map_sd_error_to_blk_error e2 = .NotSupported
      ∨ map_sd_error_to_blk_error e2 = .Other (.sdWrapper e2))
    ∧ map_mci_error_to_blk_error .Timeout = .Retry
    ∧ map_mci_error_to_blk_error .TransferFailed = .Retry
    ∧ map_mci_error_to_blk_error .StopTransmissionFailed = .Retry
    ∧ map_mci_error_to_blk_error .WaitWriteCompleteFailed = .Retry
    ∧ map_sd_error_to_blk_error .Timeout = .Retry
    ∧ map_sd_error_to_blk_error .DataTimeout = .Retry
    ∧ map_mci_error_to_blk_error .CardDetectFailed = .NotSupported
    ∧ map_mci_error_to_blk_error .CardInitFailed = .NotSupported
    ∧ map_mci_error_to_blk_error .InvalidVoltage = .NotSupported
    ∧ map_mci_error_to_blk_error .SwitchVoltageFail = .NotSupported
    ∧ map_mci_error_to_blk_error .SwitchVoltage18VFail33VSuccess = .NotSupported
    ∧ map_sd_error_to_blk_error .UnsupportedCard = .NotSupported
    ∧ map_sd_error_to_blk_error .VoltageSwitchFailed
        = .Other (.sdWrapper .VoltageSwitchFailed) := by
  refine ⟨?_, ?_, rfl, rfl, rfl, rfl, rfl, rfl, rfl, rfl, rfl, rfl, rfl, rfl, rfl⟩
  · cases e1 <;> simp [map_mci_error_to_blk_error]
  · cases e2 <;> simp [map_sd_error_to_blk_error]

/-- Claim C4: a request whose buffer is shorter than the 512-byte block
size is rejected with an `Other` error carrying the size-mismatch detail,
the buffer is untouched, and no vendor call is issued — on both variants,
for both read and write. -/
theorem c4_undersized_rejected (ops : SdCardOps) (eops : EMmcOps)
    (bid : Nat) (b : Buffer) (h : b.byteLen < BLOCK_SIZE) :
    SdCardQueue.submit_request ops ⟨bid, .Read b⟩
        = ⟨.error (.Other (.buffer (.InvalidSize BLOCK_SIZE b.byteLen))), b, []⟩
    ∧ SdCardQueue.submit_request ops ⟨bid, .Write b⟩
        = ⟨.error (.Other (.buffer (.InvalidSize BLOCK_SIZE b.byteLen))), b, []⟩
    ∧ EmmcQueue.submit_request eops ⟨bid, .Read b⟩
        = ⟨.error (emmcBufferErr (.InvalidSize BLOCK_SIZE b.byteLen)), b, []⟩
    ∧ EmmcQueue.submit_request eops ⟨bid, .Write b⟩
        = ⟨.error (emmcBufferErr (.InvalidSize BLOCK_SIZE b.byteLen)), b, []⟩ := by
  refine ⟨?_, ?_, ?_, ?_⟩ <;>
    simp [SdCardQueue.submit_request, EmmcQueue.submit_request,
      SdCardQueue.validate_buffer, h]

/-- Claim C4 witness: the 100-byte buffer is rejected everywhere with the
size detail and an empty call trace. -/
theorem c4_undersized_rejected_witness :
    SdCardQueue.submit_request trivialSdOps ⟨0, .Read smallBuf⟩
        = ⟨.error (.Other (.buffer (.InvalidSize BLOCK_SIZE smallBuf.byteLen))), smallBuf, []⟩
    ∧ SdCardQueue.submit_request trivialSdOps ⟨0, .Write smallBuf⟩
        = ⟨.error (.Other (.buffer (.InvalidSize BLOCK_SIZE smallBuf.byteLen))), smallBuf, []⟩
    ∧ EmmcQueue.submit_request trivialEmmcOps ⟨0, .Read smallBuf⟩
        = ⟨.error (emmcBufferErr (.InvalidSize BLOCK_SIZE smallBuf.byteLen)), smallBuf, []⟩
    ∧ EmmcQueue.submit_request trivialEmmcOps ⟨0, .Write smallBuf⟩
        = ⟨.error (emmcBufferErr (.InvalidSize BLOCK_SIZE smallBuf.byteLen)), smallBuf, []⟩ :=
  c4_undersized_rejected trivialSdOps trivialEmmcOps 0 smallBuf (by decide)

/-- Claim C5 counterexample: a 4-byte buffer starting at address 2 has a
misaligned start, yet `submit_request` reports the size-mismatch detail,
not the alignment-mismatch detail, because the size check runs first. -/
theorem c5_counterexample :
    (SdCardQueue.submit_request trivialSdOps ⟨0, .Read misalignedTiny⟩).result
        = .error (.Other (.buffer (.InvalidSize BLOCK_SIZE 4)))
    ∧ (SdCardQueue.submit_request trivialSdOps ⟨0, .Read misalignedTiny⟩).result
        ≠ .error (.Other (.buffer .InvalidAlignment)) := by
  decide

/-- Claim C5 (amended): for every request whose buffer is at least the
512-byte block size but whose start or end address is not word-aligned,
`submit_request` returns an `Other` error carrying the alignment-mismatch
detail and no vendor call is issued, on both variants and both arms; a
buffer that is also undersized instead receives the size-mismatch error. -/
theorem c5_misaligned_rejected (ops : SdCardOps) (eops : EMmcOps)
    (bid : Nat) (b : Buffer) (hs : BLOCK_SIZE ≤ b.byteLen)
    (ha : b.addr % 4 ≠ 0 ∨ (b.addr + b.byteLen) % 4 ≠ 0) :
    SdCardQueue.submit_request ops ⟨bid, .Read b⟩
        = ⟨.error (.Other (.buffer .InvalidAlignment)), b, []⟩
    ∧ SdCardQueue.submit_request ops ⟨bid, .Write b⟩
        = ⟨.error (.Other (.buffer .InvalidAlignment)), b, []⟩
    ∧ EmmcQueue.submit_request eops ⟨bid, .Read b⟩
        = ⟨.error (emmcBufferErr .InvalidAlignment), b, []⟩
    ∧ EmmcQueue.submit_request eops ⟨bid, .Write b⟩
        = ⟨.error (emmcBufferErr .InvalidAlignment), b, []⟩ := by
  have hml : alignPrefixLen b ≠ 0 ∨ alignSuffixLen b ≠ 0 :=
    misaligned_ends b (by unfold BLOCK_SIZE at hs; omega) ha
  have hnlt : ¬ b.byteLen < BLOCK_SIZE := Nat.not_lt.mpr hs
  refine ⟨?_, ?_, ?_, ?_⟩ <;>
    simp [SdCardQueue.submit_request, EmmcQueue.submit_request,
      SdCardQueue.validate_buffer, hnlt, hml]

/-- Claim C5 witness: a 512-byte buffer starting at address 1 draws the
alignment-mismatch error on every path, with no vendor call. -/
theorem c5_misaligned_rejected_witness :
    SdCardQueue.submit_request trivialSdOps ⟨0, .Read misalignedBig⟩
        = ⟨.error (.Other (.buffer .InvalidAlignment)), misalignedBig, []⟩
    ∧ SdCardQueue.submit_request trivialSdOps ⟨0, .Write misalignedBig⟩
        = ⟨.error (.Other (.buffer .InvalidAlignment)), misalignedBig, []⟩
    ∧ EmmcQueue.submit_request trivialEmmcOps ⟨0, .Read misalignedBig⟩
        = ⟨.error (emmcBufferErr .InvalidAlignment), misalignedBig, []⟩
    ∧ EmmcQueue.submit_request trivialEmmcOps ⟨0, .Write misalignedBig⟩
        = ⟨.error (emmcBufferErr .InvalidAlignment), misalignedBig, []⟩ :=
  c5_misaligned_rejected trivialSdOps trivialEmmcOps 0 misalignedBig
    (by decide) (Or.inl (by decide))

/-- Claim C1 counterexample: for logical block id 2^32 on the SD-card
variant, the `as u32` cast truncates the physical id, so the vendor read
is invoked with start block 0x20000 instead of 2^32 + 0x4000000/512. -/
theorem c1_counterexample :
    (SdCardQueue.submit_request trivialSdOps ⟨4294967296, .Read bigBuf⟩).calls
        = [HWCall.readBlocks 131072 1]
    ∧ (131072 : Nat) ≠ 4294967296 + SD_OFFSET / 512 := by
  decide

/-- Claim C1 (amended): for every submitted request, every vendor
read/write call receives the physical block id
`(logical_block_id + RESERVED_OFFSET) mod 2^32`, where RESERVED_OFFSET is
0x4000000/512 blocks on the SD-card variant and 0x7A000 blocks on the
eMMC variant; the mod-2^32 truncation comes from the `as u32` cast at the
vendor call. -/
theorem c1_offset_translation (ops : SdCardOps) (eops : EMmcOps) (req : Request) :
    (∀ c ∈ (SdCardQueue.submit_request ops req).calls,
        c.start = (req.block_id + SD_OFFSET / 512) % 4294967296)
    ∧ (∀ c ∈ (EmmcQueue.submit_request eops req).calls,
        c.start = (req.block_id + EMMC_OFFSET) % 4294967296) := by
  obtain ⟨bid, kind⟩ := req
  constructor
  · cases kind with
    | Read b =>
      simp only [SdCardQueue.submit_request]
      cases hv : SdCardQueue.validate_buffer b with
      | error e => simp
      | ok u =>
        cases hr : ops.read_blocks (toU32 (bid + SD_OFFSET / 512)) 1 with
        | error e => simp [HWCall.start, toU32]
        | ok temp => simp [HWCall.start, toU32]
    | Write b =>
      simp only [SdCardQueue.submit_request]
      cases hv : SdCardQueue.validate_buffer b with
      | error e => simp
      | ok u =>
        cases hr : ops.write_blocks b.words (toU32 (bid + SD_OFFSET / 512)) 1 with
        | error e => simp [HWCall.start, toU32]
        | ok u2 => simp [HWCall.start, toU32]
  · cases kind with
    | Read b =>
      simp only [EmmcQueue.submit_request]
      split
      · simp
      · split
        · simp
        · cases hr : eops.read_blocks (toU32 (bid + EMMC_OFFSET)) 1 b.words with
          | error e => simp [hr, HWCall.start, toU32]
          | ok w => simp [hr, HWCall.start, toU32]
    | Write b =>
      simp only [EmmcQueue.submit_request]
      split
      · simp
      · split
        · simp
        · cases hr : eops.write_blocks (toU32 (bid + EMMC_OFFSET)) 1 b.words with
          | error e => simp [hr, HWCall.start, toU32]
          | ok u => simp [hr, HWCall.start, toU32]

/-- Claim C1 witness: a valid read of logical block 10 on the SD-card
variant invokes the vendor read at physical block (10 + 0x4000000/512)
mod 2^32 = 131082. -/
theorem c1_offset_translation_witness :
    HWCall.start (HWCall.readBlocks 131082 1) = (10 + SD_OFFSET / 512) % 4294967296 :=
  (c1_offset_translation trivialSdOps trivialEmmcOps ⟨10, .Read bigBuf⟩).1
    (HWCall.readBlocks 131082 1) (by decide)

/-- Claim C6 counterexample: the rate 2^32 + 24 MHz = 4318967296 Hz is
outside the supported table, yet `set_rate` succeeds and selects the
24 MHz source, because the requested rate is compared only after the
`rate as u32` truncation — the out-of-table request is not fatal. -/
theorem c6_counterexample :
    ClkDriver.set_rate EMMC_CLK_ID 4318967296 = .ok .XIN_SOC0_MUX
    ∧ (4318967296 : Nat) ∉ emmcRateTable := by
  decide

/-- Claim C6 (amended): for every requested eMMC rate in the fixed table
{24 MHz, 50/52 MHz, 100 MHz, 150 MHz, 200 MHz, 375/400 KHz}, `set_rate`
with the eMMC clock id succeeds and selects exactly one discrete
clock-source selector; for any requested rate whose truncation to 32 bits
falls outside the table, the call is fatal (the panic arm fires, aborting
the probe sequence for that device). Rates are compared only after the
`as u32` cast. -/
theorem c6_emmc_rate_table (rate : Nat) :
    (rate ∈ emmcRateTable → ∃ sel, ClkDriver.set_rate EMMC_CLK_ID rate = .ok sel)
    ∧ (toU32 rate ∉ emmcRateTable → ClkDriver.set_rate EMMC_CLK_ID rate = .panicked rate) := by
  constructor
  · intro h
    fin_cases h
    · exact ⟨.XIN_SOC0_MUX, by decide⟩
    · exact ⟨.CPL_DIV_50M, by decide⟩
    · exact ⟨.CPL_DIV_50M, by decide⟩
    · exact ⟨.CPL_DIV_100M, by decide⟩
    · exact ⟨.GPL_DIV_150M, by decide⟩
    · exact ⟨.GPL_DIV_200M, by decide⟩
    · exact ⟨.SOC0_375K, by decide⟩
    · exact ⟨.SOC0_375K, by decide⟩
  · intro h
    simp only [emmcRateTable, List.mem_cons, List.not_mem_nil, or_false, not_or] at h
    obtain ⟨h1, h2, h3, h4, h5, h6, h7, h8⟩ := h
    simp [ClkDriver.set_rate, EMMC_CLK_ID, h1, h2, h3, h4, h5, h6, h7, h8]

/-- Claim C6 witness: 24 MHz is accepted with one selector, and the
out-of-table rate 33 MHz (the spec's scenario) is fatal. -/
theorem c6_emmc_rate_table_witness :
    (∃ sel, ClkDriver.set_rate EMMC_CLK_ID 24000000 = .ok sel)
    ∧ ClkDriver.set_rate EMMC_CLK_ID 33000000 = .panicked 33000000 :=
  ⟨(c6_emmc_rate_table 24000000).1 (by decide),
    (c6_emmc_rate_table 33000000).2 (by decide)⟩

/-- Claim C3 counterexample: on the eMMC variant the hardware read is not
performed into an internally-allocated staging region. If it were, the
first returned word of a valid read would be either a device-staged word
— identical across two runs of the same request against the same vendor
state — or, beyond the copied prefix, the caller's own prior first word.
Two concrete runs of block 10 through the in-place vendor stand-in,
differing only in the caller buffer's prior content (all zeros vs all
ones), return first words 1 and 2: they differ across the runs and each
differs from its caller's prior word, which no staging-then-truncated-copy
mechanism can produce — the read went directly into the caller buffer. -/
theorem c3_counterexample :
    (EmmcQueue.submit_request probeEmmcOps ⟨10, .Read bigBuf⟩).buffer.words.head? = some 1
    ∧ (EmmcQueue.submit_request probeEmmcOps ⟨10, .Read onesBuf⟩).buffer.words.head? = some 2
    ∧ bigBuf.words.head? = some 0
    ∧ onesBuf.words.head? = some 1
    ∧ ¬((EmmcQueue.submit_request probeEmmcOps ⟨10, .Read bigBuf⟩).buffer.words.head?
          = (EmmcQueue.submit_request probeEmmcOps ⟨10, .Read onesBuf⟩).buffer.words.head?
        ∨ ((EmmcQueue.submit_request probeEmmcOps ⟨10, .Read bigBuf⟩).buffer.words.head?
              = bigBuf.words.head?
            ∧ (EmmcQueue.submit_request probeEmmcOps ⟨10, .Read onesBuf⟩).buffer.words.head?
              = onesBuf.words.head?)) := by
  decide

/-- Claim C3 (amended): for every valid read request on the SD-card
variant, the hardware read is performed into the internally-allocated
staging vector and the minimum of the staging length and the caller word
count is copied back, so the returned caller buffer is the staged read
output truncated to the caller length with the remaining caller words
unchanged, the buffer keeps its length, and the one vendor read is issued
at the translated physical block; on the eMMC variant no staging region
exists — the hardware read is performed directly into the caller buffer
handed to the vendor call, and the returned caller buffer is exactly what
the vendor read wrote in place. -/
theorem c3_read_staging_copy (ops : SdCardOps) (eops : EMmcOps) (bid : Nat)
    (b : Buffer) (staged newWords : List Nat)
    (hv : SdCardQueue.validate_buffer b = .ok ())
    (hr : ops.read_blocks (toU32 (bid + SD_OFFSET / 512)) 1 = .ok staged)
    (her : eops.read_blocks (toU32 (bid + EMMC_OFFSET)) 1 b.words = .ok newWords) :
    SdCardQueue.submit_request ops ⟨bid, .Read b⟩
        = ⟨.ok 0,
            { b with words := staged.take (min staged.length b.words.length)
                ++ b.words.drop (min staged.length b.words.length) },
            [.readBlocks (toU32 (bid + SD_OFFSET / 512)) 1]⟩
    ∧ (SdCardQueue.submit_request ops ⟨bid, .Read b⟩).buffer.words.length
        = b.words.length
    ∧ EmmcQueue.submit_request eops ⟨bid, .Read b⟩
        = ⟨.ok 0, { b with words := newWords },
            [.readBlocks (toU32 (bid + EMMC_OFFSET)) 1]⟩ := by
  have h1 : SdCardQueue.submit_request ops ⟨bid, .Read b⟩
      = ⟨.ok 0,
          { b with words := staged.take (min staged.length b.words.length)
              ++ b.words.drop (min staged.length b.words.length) },
          [.readBlocks (toU32 (bid + SD_OFFSET / 512)) 1]⟩ := by
    simp [SdCardQueue.submit_request, hv, hr]
  obtain ⟨hlen, halign⟩ := validate_ok_conds b hv
  refine ⟨h1, ?_, ?_⟩
  · rw [h1]
    simp only [List.length_append, List.length_take, List.length_drop]
    omega
  · simp [EmmcQueue.submit_request, hlen, halign, her]

/-- Claim C3 witness: reading logical block 10 into a zero-filled
one-block buffer through an SD vendor stub staging the words 7, 8, 9 and
an eMMC vendor stub that writes the buffer back unchanged returns, on the
SD variant, the staged output truncated to the caller length with the
length kept and the translated read issued, and on the eMMC variant the
in-place vendor output with its translated read issued. -/
theorem c3_read_staging_copy_witness :
    SdCardQueue.submit_request stubSdOps ⟨10, .Read bigBuf⟩
        = ⟨.ok 0,
            { bigBuf with words :=
                [7, 8, 9].take (min [7, 8, 9].length bigBuf.words.length)
                ++ bigBuf.words.drop (min [7, 8, 9].length bigBuf.words.length) },
            [.readBlocks (toU32 (10 + SD_OFFSET / 512)) 1]⟩
    ∧ (SdCardQueue.submit_request stubSdOps ⟨10, .Read bigBuf⟩).buffer.words.length
        = bigBuf.words.length
    ∧ EmmcQueue.submit_request trivialEmmcOps ⟨10, .Read bigBuf⟩
        = ⟨.ok 0, { bigBuf with words := bigBuf.words },
            [.readBlocks (toU32 (10 + EMMC_OFFSET)) 1]⟩ :=
  c3_read_staging_copy stubSdOps trivialEmmcOps 10 bigBuf [7, 8, 9] bigBuf.words
    (by decide) rfl rfl

/-- Claim C9: every submitted request issues vendor transfers only with
block count exactly 1, and a request whose buffer passes validation
issues exactly one such transfer — on both variants. -/
theorem c9_single_block_transfer (ops : SdCardOps) (eops : EMmcOps) (req : Request)
    (hv : SdCardQueue.validate_buffer req.buffer = .ok ()) :
    (∃ c, (SdCardQueue.submit_request ops req).calls = [c] ∧ c.count = 1)
    ∧ (∃ c, (EmmcQueue.submit_request eops req).calls = [c] ∧ c.count = 1) := by
  obtain ⟨bid, kind⟩ := req
  cases kind with
  | Read b =>
    have hb : SdCardQueue.validate_buffer b = .ok () := hv
    obtain ⟨hlen, halign⟩ := validate_ok_conds b hb
    constructor
    · simp only [SdCardQueue.submit_request, hb]
      cases hr : ops.read_blocks (toU32 (bid + SD_OFFSET / 512)) 1 with
      | error e =>
        exact ⟨.readBlocks (toU32 (bid + SD_OFFSET / 512)) 1, by simp [hr], rfl⟩
      | ok temp =>
        exact ⟨.readBlocks (toU32 (bid + SD_OFFSET / 512)) 1, by simp [hr], rfl⟩
    · simp only [EmmcQueue.submit_request, hlen, halign]
      cases hr : eops.read_blocks (toU32 (bid + EMMC_OFFSET)) 1 b.words with
      | error e =>
        exact ⟨.readBlocks (toU32 (bid + EMMC_OFFSET)) 1,
          by simp [hr, hlen, halign], rfl⟩
      | ok w =>
        exact ⟨.readBlocks (toU32 (bid + EMMC_OFFSET)) 1,
          by simp [hr, hlen, halign], rfl⟩
  | Write b =>
    have hb : SdCardQueue.validate_buffer b = .ok () := hv
    obtain ⟨hlen, halign⟩ := validate_ok_conds b hb
    constructor
    · simp only [SdCardQueue.submit_request, hb]
      cases hr : ops.write_blocks b.words (toU32 (bid + SD_OFFSET / 512)) 1 with
      | error e =>
        exact ⟨.writeBlocks (toU32 (bid + SD_OFFSET / 512)) 1, by simp [hr], rfl⟩
      | ok u =>
        exact ⟨.writeBlocks (toU32 (bid + SD_OFFSET / 512)) 1, by simp [hr], rfl⟩
    · simp only [EmmcQueue.submit_request, hlen, halign]
      cases hr : eops.write_blocks (toU32 (bid + EMMC_OFFSET)) 1 b.words with
      | error e =>
        exact ⟨.writeBlocks (toU32 (bid + EMMC_OFFSET)) 1,
          by simp [hr, hlen, halign], rfl⟩
      | ok u =>
        exact ⟨.writeBlocks (toU32 (bid + EMMC_OFFSET)) 1,
          by simp [hr, hlen, halign], rfl⟩

/-- Claim C9 witness: a valid read of block 5 issues exactly one
single-block transfer on each variant. -/
theorem c9_single_block_transfer_witness :
    (∃ c, (SdCardQueue.submit_request trivialSdOps ⟨5, .Read bigBuf⟩).calls = [c]
      ∧ c.count = 1)
    ∧ (∃ c, (EmmcQueue.submit_request trivialEmmcOps ⟨5, .Read bigBuf⟩).calls = [c]
      ∧ c.count = 1) :=
  c9_single_block_transfer trivialSdOps trivialEmmcOps ⟨5, .Read bigBuf⟩ (by decide)

end Axbsp
